import Mathlib

/-!
Verification development for the 3d-mouse-plus-blender addon.

The embedding models the repository's Python modules over exact rationals:

* `src/spnav.py`   — the `SpnavMotionEvent` / `SpnavButtonEvent` values;
* `src/listener.py` — the activatable event queues and their drain calls;
* `src/preferences.py` — `apply_event_preferences` and
  `get_preferred_active_view_rotation_matrix`;
* `src/matrix_memo.py` — the `MatrixMemo` write-through transform cache;
* `src/tool.py`    — the `NDOFTransformOperator` state machine
  (`check_mouse_at_rest`, `check_bend_mode`, `toggle_bend_mode`,
  `update_target_matrix`, `rotate_target`, `translate_target`,
  `kb_events`, `end_modal`, and the drain loop of `modal`).

mathutils matrices are used by the source only affinely (every 4x4 that
appears is a rotation/translation/scale composite whose bottom row is
0 0 0 1), so a 4x4 `Matrix` is embedded as a linear 3x3 block plus a
translation vector.  The Euler-angle conversions `Matrix.to_euler` and
`Euler.to_matrix` are transcendental (sine/cosine/arctangent); they are
carried as parameters in a `MathUtils` record, and every theorem below
holds for an arbitrary choice of these two functions, hence in
particular for mathutils' actual trigonometric implementations.
-/

/-- Component triple of rationals, standing in for mathutils `Vector`
(and for Euler angle triples). -/
structure Vec3 where
  x : ℚ
  y : ℚ
  z : ℚ
deriving DecidableEq, Repr

def Vec3.zero : Vec3 := ⟨0, 0, 0⟩

def Vec3.add (a b : Vec3) : Vec3 := ⟨a.x + b.x, a.y + b.y, a.z + b.z⟩

def Vec3.neg (a : Vec3) : Vec3 := ⟨-a.x, -a.y, -a.z⟩

/-- Triple of booleans, standing in for the per-axis
`lock_location` / `lock_rotation` flags of a Blender object. -/
structure BVec3 where
  x : Bool
  y : Bool
  z : Bool
deriving DecidableEq, Repr

/-- Row-major 3x3 rational matrix, the linear block of a mathutils
matrix. -/
structure Mat3 where
  m00 : ℚ
  m01 : ℚ
  m02 : ℚ
  m10 : ℚ
  m11 : ℚ
  m12 : ℚ
  m20 : ℚ
  m21 : ℚ
  m22 : ℚ
deriving DecidableEq, Repr

def Mat3.one : Mat3 := ⟨1, 0, 0, 0, 1, 0, 0, 0, 1⟩

def Mat3.mul (a b : Mat3) : Mat3 :=
  ⟨a.m00 * b.m00 + a.m01 * b.m10 + a.m02 * b.m20,
   a.m00 * b.m01 + a.m01 * b.m11 + a.m02 * b.m21,
   a.m00 * b.m02 + a.m01 * b.m12 + a.m02 * b.m22,
   a.m10 * b.m00 + a.m11 * b.m10 + a.m12 * b.m20,
   a.m10 * b.m01 + a.m11 * b.m11 + a.m12 * b.m21,
   a.m10 * b.m02 + a.m11 * b.m12 + a.m12 * b.m22,
   a.m20 * b.m00 + a.m21 * b.m10 + a.m22 * b.m20,
   a.m20 * b.m01 + a.m21 * b.m11 + a.m22 * b.m21,
   a.m20 * b.m02 + a.m21 * b.m12 + a.m22 * b.m22⟩

def Mat3.mulVec (a : Mat3) (v : Vec3) : Vec3 :=
  ⟨a.m00 * v.x + a.m01 * v.y + a.m02 * v.z,
   a.m10 * v.x + a.m11 * v.y + a.m12 * v.z,
   a.m20 * v.x + a.m21 * v.y + a.m22 * v.z⟩

def Mat3.smul (c : ℚ) (a : Mat3) : Mat3 :=
  ⟨c * a.m00, c * a.m01, c * a.m02,
   c * a.m10, c * a.m11, c * a.m12,
   c * a.m20, c * a.m21, c * a.m22⟩

def Mat3.add (a b : Mat3) : Mat3 :=
  ⟨a.m00 + b.m00, a.m01 + b.m01, a.m02 + b.m02,
   a.m10 + b.m10, a.m11 + b.m11, a.m12 + b.m12,
   a.m20 + b.m20, a.m21 + b.m21, a.m22 + b.m22⟩

def Mat3.det (a : Mat3) : ℚ :=
  a.m00 * (a.m11 * a.m22 - a.m12 * a.m21)
    - a.m01 * (a.m10 * a.m22 - a.m12 * a.m20)
    + a.m02 * (a.m10 * a.m21 - a.m11 * a.m20)

def Mat3.adjugate (a : Mat3) : Mat3 :=
  ⟨a.m11 * a.m22 - a.m12 * a.m21,
   -(a.m01 * a.m22 - a.m02 * a.m21),
   a.m01 * a.m12 - a.m02 * a.m11,
   -(a.m10 * a.m22 - a.m12 * a.m20),
   a.m00 * a.m22 - a.m02 * a.m20,
   -(a.m00 * a.m12 - a.m02 * a.m10),
   a.m10 * a.m21 - a.m11 * a.m20,
   -(a.m00 * a.m21 - a.m01 * a.m20),
   a.m00 * a.m11 - a.m01 * a.m10⟩

/-- Scale matrix with the given diagonal, the `S` factor of
`Matrix.LocRotScale`. -/
def Mat3.diag (s : Vec3) : Mat3 := ⟨s.x, 0, 0, 0, s.y, 0, 0, 0, s.z⟩

/-- mathutils `Matrix.inverted_safe` on the linear block: the true
inverse when the determinant is non-zero, otherwise the inverse after
adding a small epsilon to the diagonal (mathutils uses 1e-8).  The final
identity fallback makes the function total; no claim below depends on
the degenerate branches. -/
def Mat3.invertedSafe (a : Mat3) : Mat3 :=
  if a.det ≠ 0 then Mat3.smul (1 / a.det) a.adjugate
  else
    let b := Mat3.add a (Mat3.smul (1 / 100000000) Mat3.one)
    if b.det ≠ 0 then Mat3.smul (1 / b.det) b.adjugate else Mat3.one

/-- A mathutils 4x4 `Matrix` as the source uses it: an affine map with
linear block `lin` and translation column `trans` (bottom row fixed at
0 0 0 1). -/
structure Mat4 where
  lin : Mat3
  trans : Vec3
deriving DecidableEq, Repr

/-- `Matrix()`, the 4x4 identity. -/
def Mat4.identity : Mat4 := ⟨Mat3.one, Vec3.zero⟩

/-- Matrix product `@` restricted to affine 4x4 matrices:
`(A, a) @ (B, b) = (A B, A b + a)`. -/
def Mat4.mul (a b : Mat4) : Mat4 :=
  ⟨a.lin.mul b.lin, (a.lin.mulVec b.trans).add a.trans⟩

/-- `Matrix.to_4x4()` applied to a 3x3 matrix: embed with zero
translation. -/
def Mat4.from3 (a : Mat3) : Mat4 := ⟨a, Vec3.zero⟩

/-- `Matrix.inverted_safe` on an affine 4x4:
`(A, a)⁻¹ = (A⁻¹, -A⁻¹ a)` with the safe fallback on the block. -/
def Mat4.invertedSafe (m : Mat4) : Mat4 :=
  let l := m.lin.invertedSafe
  ⟨l, Vec3.neg (l.mulVec m.trans)⟩

/-- The two transcendental mathutils conversions, carried as
parameters: `eulerToMat` is `Euler(...).to_matrix()` on an XYZ angle
triple, `matToEuler` is `Matrix.to_euler()` (a function of the 3x3
block only).  Theorems quantify over this record, so they hold for the
actual trigonometric definitions. -/
structure MathUtils where
  eulerToMat : Vec3 → Mat3
  matToEuler : Mat3 → Vec3

/-- `Matrix.LocRotScale(loc, rot, scale)` = `T(loc) @ R(rot) @ S(scale)`:
linear block `R S`, translation `loc`. -/
def LocRotScale (mu : MathUtils) (loc : Vec3) (rot : Vec3) (scale : Vec3) : Mat4 :=
  ⟨(mu.eulerToMat rot).mul (Mat3.diag scale), loc⟩

/-- Exceptions the Python source can raise on the modelled paths:
`attributeError` for attribute access on `None` (e.g.
`None.inverted_safe()`), `typeError` for `tuple(None)`. -/
inductive PyExn where
  | attributeError
  | typeError
deriving DecidableEq, Repr

/-- `SpnavMotionEvent` from `src/spnav.py`: translation force, rotation
torque, and the opaque period field. -/
structure SpnavMotionEvent where
  translation : Vec3
  rotation : Vec3
  period : ℤ
deriving DecidableEq, Repr

/-- `SpnavButtonEvent` from `src/spnav.py`. -/
structure SpnavButtonEvent where
  bnum : ℤ
  press : Bool
deriving DecidableEq, Repr

/-! `SpnavListenerBase` (`src/listener.py`): each queue is
`Option (List _)` — `none` models the Python `None` of a deactivated
queue, `some l` an active queue holding `l` in arrival order.  The
drains return the consumed batch together with the queue's new state. -/

/-- `SpnavListenerBase.activate_motion`: create the empty list only when
the queue is inactive. -/
def activate_motion (q : Option (List SpnavMotionEvent)) : Option (List SpnavMotionEvent) :=
  match q with
  | none => some []
  | some l => some l

/-- `SpnavListenerBase.deactivate_motion`: reset the queue to `None`. -/
def deactivate_motion (_q : Option (List SpnavMotionEvent)) : Option (List SpnavMotionEvent) :=
  none

/-- `SpnavListenerBase.motion_events`: `tuple(queue)` then
`queue.clear()`.  On a `None` queue, `tuple(None)` raises `TypeError`. -/
def motion_events (q : Option (List SpnavMotionEvent)) :
    Except PyExn (List SpnavMotionEvent × Option (List SpnavMotionEvent)) :=
  match q with
  | none => .error .typeError
  | some l => .ok (l, some [])

/-- `SpnavListenerBase.button_events`, same shape as `motion_events`. -/
def button_events (q : Option (List SpnavButtonEvent)) :
    Except PyExn (List SpnavButtonEvent × Option (List SpnavButtonEvent)) :=
  match q with
  | none => .error .typeError
  | some l => .ok (l, some [])

/-- `Addon3DMousePlusPreferences` from `src/preferences.py` (the fields
`apply_event_preferences` and the view computation read). -/
structure Addon3DMousePlusPreferences where
  sensitivity_rotate : ℚ
  sensitivity_translation : ℚ
  use_view_axis_x : Bool
  use_view_axis_y : Bool
  use_view_axis_z : Bool
  translation_invert_x : Bool
  translation_invert_y : Bool
  translation_invert_z : Bool
  translation_flip_x_y : Bool
  translation_flip_x_z : Bool
  translation_flip_y_z : Bool
  rotate_invert_x : Bool
  rotate_invert_y : Bool
  rotate_invert_z : Bool
  rotate_flip_x_y : Bool
  rotate_flip_x_z : Bool
  rotate_flip_y_z : Bool
deriving DecidableEq, Repr

/-- One pass of the inner loop of `apply_event_preferences` on a single
vector: scale by the sensitivity; negate the axes whose invert flag is
set (x, then y, then z); then swap the axis pairs whose flip flag is
set, sequentially in the source's fixed order xy, xz, yz. -/
def apply_vec_preferences (sensitivity : ℚ) (ix iy iz fxy fxz fyz : Bool) (v : Vec3) : Vec3 :=
  let v : Vec3 := ⟨v.x * sensitivity, v.y * sensitivity, v.z * sensitivity⟩
  let v : Vec3 := if ix then ⟨v.x * -1, v.y, v.z⟩ else v
  let v : Vec3 := if iy then ⟨v.x, v.y * -1, v.z⟩ else v
  let v : Vec3 := if iz then ⟨v.x, v.y, v.z * -1⟩ else v
  let v : Vec3 := if fxy then ⟨v.y, v.x, v.z⟩ else v
  let v : Vec3 := if fxz then ⟨v.z, v.y, v.x⟩ else v
  let v : Vec3 := if fyz then ⟨v.x, v.z, v.y⟩ else v
  v

/-- `apply_event_preferences` from `src/preferences.py`: remap the
translation vector with the translation settings and the rotation
vector with the rotate settings; the period is passed through. -/
def apply_event_preferences (prefs : Addon3DMousePlusPreferences)
    (event : SpnavMotionEvent) : SpnavMotionEvent :=
  let loc := apply_vec_preferences prefs.sensitivity_translation
    prefs.translation_invert_x prefs.translation_invert_y prefs.translation_invert_z
    prefs.translation_flip_x_y prefs.translation_flip_x_z prefs.translation_flip_y_z
    event.translation
  let rot := apply_vec_preferences prefs.sensitivity_rotate
    prefs.rotate_invert_x prefs.rotate_invert_y prefs.rotate_invert_z
    prefs.rotate_flip_x_y prefs.rotate_flip_x_z prefs.rotate_flip_y_z
    event.rotation
  ⟨loc, rot, event.period⟩

/-! View context (`bpy.context` as `get_preferred_active_view_rotation_matrix`
reads it): an optional area holding a list of spaces, of which the first
`SpaceView3D` may carry region data with a view matrix.  `mode` is
`bpy.context.mode` as tested by `modal`. -/

/-- `RegionView3D` data: the current view matrix. -/
structure Region3D where
  view_matrix : Mat4
deriving DecidableEq, Repr

/-- A `SpaceView3D`: its `region_3d` can be `None`. -/
structure SpaceView3D where
  region_3d : Option Region3D
deriving DecidableEq, Repr

/-- A space of an area: either a 3D viewport space or some other space
type (the `isinstance(space, SpaceView3D)` test distinguishes them). -/
inductive BSpace where
  | view3d (s : SpaceView3D)
  | other
deriving DecidableEq, Repr

/-- An area with its spaces. -/
structure Area where
  spaces : List BSpace
deriving DecidableEq, Repr

/-- The slice of `bpy.context` the modelled code reads. -/
structure BContext where
  area : Option Area
  mode : String
deriving DecidableEq, Repr

/-- The generator-with-`next` search in
`get_preferred_active_view_rotation_matrix`: first space of the area
that is a `SpaceView3D`, or `None`. -/
def find_spaceview3d (spaces : List BSpace) : Option SpaceView3D :=
  spaces.findSome? (fun s => match s with | .view3d v => some v | .other => none)

/-- `get_preferred_active_view_rotation_matrix` from
`src/preferences.py`: `None` when the context has no area, no
`SpaceView3D` space, or no region data; otherwise the view matrix with
translation cleared, decomposed to Euler angles, masked per axis by the
`use_view_axis` preferences against the identity's angles, and rebuilt
as a rotation-only 4x4. -/
def get_preferred_active_view_rotation_matrix (mu : MathUtils)
    (prefs : Addon3DMousePlusPreferences) (ctx : BContext) : Option Mat4 :=
  match ctx.area with
  | none => none
  | some area =>
    match find_spaceview3d area.spaces with
    | none => none
    | some spaceview3d =>
      match spaceview3d.region_3d with
      | none => none
      | some region_3d =>
        let matrix : Mat4 := ⟨region_3d.view_matrix.lin, Vec3.zero⟩
        let angle := mu.matToEuler matrix.lin
        let identity_angle := mu.matToEuler Mat3.one
        let angle : Vec3 :=
          ⟨if prefs.use_view_axis_x then angle.x else identity_angle.x,
           if prefs.use_view_axis_y then angle.y else identity_angle.y,
           if prefs.use_view_axis_z then angle.z else identity_angle.z⟩
        some (Mat4.from3 (mu.eulerToMat angle))

/-- True exactly on the contexts where
`get_preferred_active_view_rotation_matrix` takes one of its three
`return None` branches: no area, no 3D viewport space, or no region
data. -/
def no_view_context (ctx : BContext) : Bool :=
  match ctx.area with
  | none => true
  | some area =>
    match find_spaceview3d area.spaces with
    | none => true
    | some spaceview3d => spaceview3d.region_3d.isNone

/-- The target entity as the operator sees it (a Blender `Object`, or a
`PoseBone` — the memo reads and writes `matrix_basis` for the former and
`matrix` for the latter; both are carried here as the single field
`matrix`).  `lock_location` / `lock_rotation` are the per-axis transform
locks, `scale` the live scale read by `update_target_matrix`. -/
structure BObject where
  matrix : Mat4
  lock_location : BVec3
  lock_rotation : BVec3
  scale : Vec3
deriving DecidableEq, Repr

/-- `target.location`: for a Blender object this is the translation of
its basis matrix. -/
def BObject.location (o : BObject) : Vec3 := o.matrix.trans

/-- `MatrixMemo` from `src/matrix_memo.py`: a write-through cache in
front of the target's matrix.  `matrix` is the `__matrix` cache (starts
`None`); `target` is the cached entity.  In the Python source the
`target` passed around `tool.py` and the memo's `target` alias the same
object, so the memo carries the live object here. -/
structure MatrixMemo where
  matrix : Option Mat4
  target : BObject
deriving DecidableEq, Repr

/-- `MatrixMemo.get_matrix`: the cached value if one was set in this
memo's lifetime, else the live entity matrix. -/
def MatrixMemo.get_matrix (m : MatrixMemo) : Mat4 :=
  match m.matrix with
  | some cached => cached
  | none => m.target.matrix

/-- `MatrixMemo.set_matrix`: write through to the entity and cache the
written value. -/
def MatrixMemo.set_matrix (m : MatrixMemo) (mat : Mat4) : MatrixMemo :=
  ⟨some mat, { m.target with matrix := mat }⟩

/-- The per-gesture state of `NDOFTransformOperator`: the `__init__`
fields plus the `locked_rotate` / `locked_translate` / `bend_mode`
operator properties.  (`btn`, the launch-button bookkeeping used only by
`invoke`/`check_button_event`, is outside the modelled claims.) -/
structure OpState where
  initial_transform : Option Mat4
  bend_transform : Option Mat4
  finished : Bool
  mouse_at_rest : Bool
  should_undo : Bool
  locked_rotate : Bool
  locked_translate : Bool
  bend_mode : Bool
deriving DecidableEq, Repr

/-- The state a `modal` call threads: the operator fields, the
per-call `MatrixMemo` (carrying the live target), and the listener's
motion queue. -/
structure World where
  op : OpState
  memo : MatrixMemo
  motion_queue : Option (List SpnavMotionEvent)
deriving DecidableEq, Repr

/-- `BENT_ROTATE_MOD` from `src/tool.py`. -/
def BENT_ROTATE_MOD : ℚ := 16

/-- `BENT_TRANSLATE_MOD` from `src/tool.py`. -/
def BENT_TRANSLATE_MOD : ℚ := 8

/-- `NDOFTransformOperator.check_mouse_at_rest`: store and return
whether all six event components are exactly zero. -/
def check_mouse_at_rest (op : OpState) (ev : SpnavMotionEvent) : OpState × Bool :=
  let r := [ev.translation.x, ev.translation.y, ev.translation.z,
            ev.rotation.x, ev.rotation.y, ev.rotation.z].all (fun x => x == 0)
  ({ op with mouse_at_rest := r }, r)

/-- `NDOFTransformOperator.toggle_bend_mode`: clear the anchor when
switching bend mode off, then flip the flag. -/
def toggle_bend_mode (op : OpState) : OpState :=
  let op := if op.bend_mode then { op with bend_transform := none } else op
  { op with bend_mode := !op.bend_mode }

/-- `NDOFTransformOperator.check_bend_mode`: no-op unless bend mode is
active; capture the current transform as the anchor if none is
recorded, otherwise reset the live transform to the anchor. -/
def check_bend_mode (w : World) : World :=
  if !w.op.bend_mode then w
  else
    match w.op.bend_transform with
    | none => { w with op.bend_transform := some w.memo.get_matrix }
    | some anchor => { w with memo := w.memo.set_matrix anchor }

/-- `NDOFTransformOperator.update_target_matrix`: keep the old
translation component on location-locked axes and the old Euler angle
on rotation-locked axes, take the live scale, and store the
`Matrix.LocRotScale` recomposition through the memo. -/
def update_target_matrix (mu : MathUtils) (new_matrix : Mat4) (memo : MatrixMemo) :
    MatrixMemo :=
  let old := memo.get_matrix
  let t := memo.target
  let loc : Vec3 :=
    ⟨if t.lock_location.x then old.trans.x else new_matrix.trans.x,
     if t.lock_location.y then old.trans.y else new_matrix.trans.y,
     if t.lock_location.z then old.trans.z else new_matrix.trans.z⟩
  let newE := mu.matToEuler new_matrix.lin
  let oldE := mu.matToEuler old.lin
  let rot : Vec3 :=
    ⟨if t.lock_rotation.x then oldE.x else newE.x,
     if t.lock_rotation.y then oldE.y else newE.y,
     if t.lock_rotation.z then oldE.z else newE.z⟩
  let scale := t.scale
  memo.set_matrix (LocRotScale mu loc rot scale)

/-- `NDOFTransformOperator.rotate_target`: negate the z torque, scale
the angles by `mod / 500` with the bend multiplier, express the rotation
in view space (`view⁻¹ @ (rot @ view) @ world_centered`), re-attach the
original translation, and store via `update_target_matrix`.  A `None`
view raises `AttributeError` at `view.inverted_safe()`. -/
def rotate_target (mu : MathUtils) (view : Option Mat4) (rot : Vec3) (w : World) :
    Except PyExn World :=
  let r : Vec3 := ⟨rot.x, rot.y, -rot.z⟩
  let mod : ℚ := if w.op.bend_mode then BENT_ROTATE_MOD else 1
  let world := w.memo.get_matrix
  let rotM : Mat4 := Mat4.from3 (mu.eulerToMat ⟨r.x / 500 * mod, r.y / 500 * mod, r.z / 500 * mod⟩)
  let world_centered : Mat4 := ⟨world.lin, Vec3.zero⟩
  match view with
  | none => .error .attributeError
  | some v =>
    let a := ((v.invertedSafe.mul (rotM.mul v)).mul world_centered)
    let a : Mat4 := ⟨a.lin, world.trans⟩
    .ok { w with memo := update_target_matrix mu a w.memo }

/-- `NDOFTransformOperator.translate_target`: reorder the force to
`(x, z, y)`, scale by the bend multiplier, compose
`view⁻¹ @ (move @ (view @ world_pos))`, keep only the resulting
translation on top of the cached matrix, and store via
`update_target_matrix`.  A `None` view raises `AttributeError`. -/
def translate_target (mu : MathUtils) (view : Option Mat4) (loc : Vec3) (w : World) :
    Except PyExn World :=
  let l : Vec3 := ⟨loc.x, loc.z, loc.y⟩
  let mod : ℚ := if w.op.bend_mode then BENT_TRANSLATE_MOD else 1
  let move : Mat4 := ⟨Mat3.one, ⟨l.x * mod, l.y * mod, l.z * mod⟩⟩
  let world_pos : Mat4 := ⟨Mat3.one, w.memo.target.location⟩
  match view with
  | none => .error .attributeError
  | some v =>
    let a := v.invertedSafe.mul (move.mul (v.mul world_pos))
    let world : Mat4 := ⟨w.memo.get_matrix.lin, a.trans⟩
    .ok { w with memo := update_target_matrix mu world w.memo }

/-- `NDOFTransformOperator.init_locks`. -/
def init_locks (op : OpState) : OpState :=
  { op with locked_translate := true, locked_rotate := false }

/-- `NDOFTransformOperator.reset_locks`. -/
def reset_locks (op : OpState) : OpState :=
  { op with locked_rotate := false, locked_translate := false }

/-- `NDOFTransformOperator.flip_locks`: swap the two lock flags, then
fall back to `init_locks` when they ended up equal. -/
def flip_locks (op : OpState) : OpState :=
  let op := { op with locked_rotate := op.locked_translate,
                      locked_translate := op.locked_rotate }
  if op.locked_translate == op.locked_rotate then init_locks op else op

/-- The keyboard bindings `get_kb` resolves from the user keymap for the
three auxiliary operators. -/
structure KbConfig where
  toggle_mode_lock : String
  reset_mode_lock : String
  toggle_bend : String
deriving DecidableEq, Repr

/-- A Blender keyboard/mouse `Event` as `kb_events` reads it. -/
structure KbEvent where
  type : String
  value : String
deriving DecidableEq, Repr

/-- `NDOFTransformOperator.kb_events`: a terminator key records
`should_undo` (true unless the key was RET or LEFTMOUSE) and marks the
gesture finished; otherwise the lock-toggle, lock-reset and bend-toggle
bindings react on key release. -/
def kb_events (cfg : KbConfig) (event : KbEvent) (op : OpState) : OpState :=
  if ["ESC", "RIGHTMOUSE", "LEFTMOUSE", "RET"].contains event.type then
    { op with should_undo := !(["RET", "LEFTMOUSE"].contains event.type),
              finished := true }
  else if event.type == cfg.toggle_mode_lock && event.value == "RELEASE" then
    flip_locks op
  else if event.type == cfg.reset_mode_lock && event.value == "RELEASE" then
    reset_locks op
  else if event.type == cfg.toggle_bend && event.value == "RELEASE" then
    toggle_bend_mode op
  else op

/-- `NDOFTransformOperator.end_modal`: restore the gesture-start
transform when `should_undo` is set, reset every session-scoped flag,
and deactivate the motion queue.  (The `paywall()` call only shows a
popup.)  Passing a `None` `initial_transform` to `set_matrix` would be a
host-level type error; it is unreachable from `modal`, which populates
the field on entry, and is modelled as a no-op. -/
def end_modal (w : World) : World :=
  let memo :=
    if w.op.should_undo then
      match w.op.initial_transform with
      | some t => w.memo.set_matrix t
      | none => w.memo
    else w.memo
  { op := { w.op with finished := false, mouse_at_rest := false,
                      initial_transform := none, should_undo := false,
                      bend_transform := none },
    memo := memo,
    motion_queue := deactivate_motion w.motion_queue }

/-- The `for mo in spnav_listener.motion_events()` loop of
`NDOFTransformOperator.modal`, over an already-drained batch.  The
returned flag is true when the loop returned through `end_modal`
(gesture ended; the rest of the batch is dropped) and false when it ran
to completion (operator stays modal). -/
def drain_loop (mu : MathUtils) (prefs : Addon3DMousePlusPreferences) (ctx : BContext) :
    List SpnavMotionEvent → World → Except PyExn (World × Bool)
  | [], w => .ok (w, false)
  | mo :: rest, w =>
    let p := check_mouse_at_rest w.op mo
    let w := { w with op := p.1 }
    let resting := p.2
    if resting || w.op.finished then
      if w.op.finished && resting then .ok (end_modal w, true)
      else drain_loop mu prefs ctx rest w
    else do
      let view := get_preferred_active_view_rotation_matrix mu prefs ctx
      let mo := apply_event_preferences prefs mo
      let w := check_bend_mode w
      let w ← if ctx.mode == "POSE" || !w.op.locked_rotate then
                rotate_target mu view mo.rotation w
              else pure w
      let w ← if !(ctx.mode == "POSE") && !w.op.locked_translate then
                translate_target mu view mo.translation w
              else pure w
      drain_loop mu prefs ctx rest w

/-- `NDOFTransformOperator.modal` for a given target and event: build
the per-call memo, capture the gesture-start transform if not yet
captured, dispatch the keyboard event, terminate if already finished and
at rest, otherwise drain and process the motion queue.  The flag is true
when the call ended the gesture. -/
def modal (mu : MathUtils) (prefs : Addon3DMousePlusPreferences) (ctx : BContext)
    (cfg : KbConfig) (op : OpState) (target : BObject)
    (queue : Option (List SpnavMotionEvent)) (event : KbEvent) :
    Except PyExn (World × Bool) :=
  let memo : MatrixMemo := ⟨none, target⟩
  let op := if op.initial_transform.isNone then
              { op with initial_transform := some memo.get_matrix }
            else op
  let op := kb_events cfg event op
  let w : World := ⟨op, memo, queue⟩
  if op.finished && op.mouse_at_rest then .ok (end_modal w, true)
  else do
    let drained ← motion_events w.motion_queue
    drain_loop mu prefs ctx drained.1 { w with motion_queue := drained.2 }

/-- The per-event application pipeline exactly as the spec words it for
a non-finished, non-resting event: preference remapping, view
orientation, bend-mode anchor handling, then the rotation update (in
pose mode or when rotation is unlocked) followed by the translation
update (outside pose mode when translation is unlocked).  Defined
separately from `drain_loop` so the drain dispatch can be compared
against it. -/
def pipeline_step (mu : MathUtils) (prefs : Addon3DMousePlusPreferences)
    (ctx : BContext) (w : World) (mo : SpnavMotionEvent) : Except PyExn World := do
  let view := get_preferred_active_view_rotation_matrix mu prefs ctx
  let mo := apply_event_preferences prefs mo
  let w := check_bend_mode w
  let w ← if ctx.mode == "POSE" || !w.op.locked_rotate then
            rotate_target mu view mo.rotation w
          else pure w
  let w ← if !(ctx.mode == "POSE") && !w.op.locked_translate then
            translate_target mu view mo.translation w
          else pure w
  pure w

/-! Concrete instances used by witnesses and counterexamples. -/

/-- A concrete choice of the transcendental conversions (constant
identity rotation / zero angles), used to instantiate theorems that
hold for every `MathUtils`. -/
def muId : MathUtils := ⟨fun _ => Mat3.one, fun _ => Vec3.zero⟩

/-- Preferences with both sensitivities 1 and every invert/flip flag
off. -/
def prefs1 : Addon3DMousePlusPreferences :=
  ⟨1, 1, true, true, true, false, false, false, false, false, false,
   false, false, false, false, false, false⟩

/-- An unlocked object at the identity transform with unit scale. -/
def obj0 : BObject :=
  ⟨Mat4.identity, ⟨false, false, false⟩, ⟨false, false, false⟩, ⟨1, 1, 1⟩⟩

/-- A fresh memo over `obj0`. -/
def memo0 : MatrixMemo := ⟨none, obj0⟩

/-- The operator state right after `__init__` and `execute`. -/
def op0 : OpState := ⟨none, none, false, false, false, false, false, false⟩

/-- A session world: fresh operator state, fresh memo, activated empty
queue. -/
def wBase : World := ⟨op0, memo0, some []⟩

/-- A world in bend mode with no anchor recorded. -/
def wBend : World := ⟨{ op0 with bend_mode := true }, memo0, some []⟩

/-- A world whose gesture is marked finished. -/
def wFin : World := ⟨{ op0 with finished := true }, memo0, some []⟩

/-- A world about to terminate with an undo requested, holding the
gesture-start transform. -/
def wUndo : World :=
  ⟨{ op0 with initial_transform := some Mat4.identity, should_undo := true },
   memo0, some []⟩

/-- A context with no area at all (one of the three no-view cases). -/
def ctxNoArea : BContext := ⟨none, "OBJECT"⟩

/-- A context with a live 3D viewport whose view matrix is the
identity. -/
def ctxView : BContext :=
  ⟨some ⟨[BSpace.view3d ⟨some ⟨Mat4.identity⟩⟩]⟩, "OBJECT"⟩

/-- The all-zero motion event (device at rest). -/
def restEvent : SpnavMotionEvent := ⟨Vec3.zero, Vec3.zero, 0⟩

/-- A concrete keymap resolution for the three auxiliary operators. -/
def cfg0 : KbConfig := ⟨"NDOF_BUTTON_FIT", "NDOF_BUTTON_MENU", "SPACE"⟩

/-- A concrete terminating keyboard event. -/
def evEsc : KbEvent := ⟨"ESC", "PRESS"⟩

/-! Helper lemmas shared by the claim proofs. -/

theorem MatrixMemo.get_set (m : MatrixMemo) (a : Mat4) :
    (m.set_matrix a).get_matrix = a := rfl

theorem check_mouse_at_rest_keeps_finished (op : OpState) (ev : SpnavMotionEvent) :
    (check_mouse_at_rest op ev).1.finished = op.finished := rfl

/-- Claim C6: applying the preference transform with both sensitivities
equal to 1, all per-axis inverts false, and all flip pairs false returns
the input event unchanged (translation, rotation and period). -/
theorem apply_event_preferences_identity (u1 u2 u3 : Bool) (ev : SpnavMotionEvent) :
    apply_event_preferences
      ⟨1, 1, u1, u2, u3, false, false, false, false, false, false,
       false, false, false, false, false, false⟩ ev = ev := by
  cases ev with
  | mk t r p =>
    cases t
    cases r
    simp [apply_event_preferences, apply_vec_preferences]

/-- Claim C7: flip pairs are applied sequentially in the fixed order xy,
then xz, then yz, so with the xy and xz translation flips both set and
sensitivity 1 the input translation (1, 2, 3) maps to (3, 1, 2) —
xy first gives (2, 1, 3), then xz gives (3, 1, 2). -/
theorem flip_pairs_apply_sequentially
    (sr : ℚ) (u1 u2 u3 rix riy riz rfxy rfxz rfyz : Bool) (rot : Vec3) (p : ℤ) :
    (apply_event_preferences
        ⟨sr, 1, u1, u2, u3, false, false, false, true, true, false,
         rix, riy, riz, rfxy, rfxz, rfyz⟩
        ⟨⟨1, 2, 3⟩, rot, p⟩).translation = ⟨3, 1, 2⟩ := by
  simp [apply_event_preferences, apply_vec_preferences]

/-- Claim C8: rest detection returns true if and only if all six
components of the motion event (three translation and three rotation)
are exactly zero. -/
theorem check_mouse_at_rest_iff_zero (op : OpState) (ev : SpnavMotionEvent) :
    (check_mouse_at_rest op ev).2 = true ↔
      (ev.translation.x = 0 ∧ ev.translation.y = 0 ∧ ev.translation.z = 0 ∧
       ev.rotation.x = 0 ∧ ev.rotation.y = 0 ∧ ev.rotation.z = 0) := by
  simp [check_mouse_at_rest, and_assoc]

/-- Claim C9: on an active queue, draining returns the full buffered
batch in order and leaves the queue active and empty, so a second drain
with no events appended in between returns an empty batch. -/
theorem motion_events_drain_exhaustive (l : List SpnavMotionEvent) :
    motion_events (some l) = .ok (l, some []) ∧
    motion_events (some ([] : List SpnavMotionEvent)) = .ok ([], some []) :=
  ⟨rfl, rfl⟩

/-- Claim C10: calling `motion_events` or `button_events` while the
corresponding queue is deactivated (None) raises a `TypeError` rather
than returning an empty batch or acting as a no-op. -/
theorem events_on_inactive_queue_raise :
    motion_events none = .error .typeError ∧
    button_events none = .error .typeError :=
  ⟨rfl, rfl⟩

/-- Claim C3: while bend mode is active, `check_bend_mode` captures the
current cached transform as the anchor when none is recorded and resets
the live transform to the anchor when one exists (this runs before the
event's delta in the drain loop); toggling bend mode off clears the
anchor, so after toggling off and back on the anchor is empty and the
next processed event captures a fresh one. -/
theorem bend_anchor_capture_reset_clear (w : World) (a : Mat4)
    (hon : w.op.bend_mode = true) :
    (w.op.bend_transform = none →
       check_bend_mode w = { w with op.bend_transform := some w.memo.get_matrix }) ∧
    (w.op.bend_transform = some a →
       check_bend_mode w = { w with memo := w.memo.set_matrix a }) ∧
    (toggle_bend_mode w.op).bend_mode = false ∧
    (toggle_bend_mode w.op).bend_transform = none ∧
    (toggle_bend_mode (toggle_bend_mode w.op)).bend_mode = true ∧
    (toggle_bend_mode (toggle_bend_mode w.op)).bend_transform = none ∧
    (check_bend_mode { w with op := toggle_bend_mode (toggle_bend_mode w.op) }).op.bend_transform
      = some w.memo.get_matrix := by
  refine ⟨?_, ?_, ?_, ?_, ?_, ?_, ?_⟩
  · intro h
    simp [check_bend_mode, hon, h]
  · intro h
    simp [check_bend_mode, hon, h]
  · simp [toggle_bend_mode, hon]
  · simp [toggle_bend_mode, hon]
  · simp [toggle_bend_mode, hon]
  · simp [toggle_bend_mode, hon]
  · simp [check_bend_mode, toggle_bend_mode, hon]

/-- Witness for C3 at a concrete bend-mode world with no anchor. -/
theorem bend_anchor_capture_reset_clear_witness :
    check_bend_mode wBend = { wBend with op.bend_transform := some wBend.memo.get_matrix } ∧
    (toggle_bend_mode wBend.op).bend_transform = none :=
  ⟨(bend_anchor_capture_reset_clear wBend Mat4.identity rfl).1 rfl,
   (bend_anchor_capture_reset_clear wBend Mat4.identity rfl).2.2.2.1⟩

/-- Claim C4: a terminating input (ESC, RIGHTMOUSE, LEFTMOUSE or RET)
marks the gesture finished and sets `should_undo` exactly when the input
was not an explicit confirm (not RET and not LEFTMOUSE); and `end_modal`
restores the gesture-start transform when `should_undo` is set, resets
every session-scoped flag (bend anchor, finished, mouse_at_rest,
should_undo, initial_transform) to its initial state, and deactivates
the motion queue. -/
theorem termination_undo_and_flag_reset (cfg : KbConfig) (event : KbEvent)
    (op : OpState) (w : World) (t : Mat4)
    (hterm : event.type = "ESC" ∨ event.type = "RIGHTMOUSE" ∨
             event.type = "LEFTMOUSE" ∨ event.type = "RET")
    (hinit : w.op.initial_transform = some t) :
    ((kb_events cfg event op).should_undo = true ↔
       (event.type ≠ "RET" ∧ event.type ≠ "LEFTMOUSE")) ∧
    (kb_events cfg event op).finished = true ∧
    (w.op.should_undo = true → (end_modal w).memo.get_matrix = t) ∧
    (end_modal w).op.bend_transform = none ∧
    (end_modal w).op.finished = false ∧
    (end_modal w).op.mouse_at_rest = false ∧
    (end_modal w).op.should_undo = false ∧
    (end_modal w).op.initial_transform = none ∧
    (end_modal w).motion_queue = none := by
  refine ⟨?_, ?_, ?_, ?_, ?_, ?_, ?_, ?_, ?_⟩
  · rcases hterm with h | h | h | h <;> simp [kb_events, h]
  · rcases hterm with h | h | h | h <;> simp [kb_events, h]
  · intro h
    simp [end_modal, h, hinit, MatrixMemo.get_set]
  · simp [end_modal]
  · simp [end_modal]
  · simp [end_modal]
  · simp [end_modal]
  · simp [end_modal]
  · simp [end_modal, deactivate_motion]

/-- Witness for C4: terminating by ESC on a session that requested undo
from the identity start transform. -/
theorem termination_undo_and_flag_reset_witness :
    ((kb_events cfg0 evEsc op0).should_undo = true ↔
       (evEsc.type ≠ "RET" ∧ evEsc.type ≠ "LEFTMOUSE")) ∧
    (kb_events cfg0 evEsc op0).finished = true ∧
    (wUndo.op.should_undo = true → (end_modal wUndo).memo.get_matrix = Mat4.identity) ∧
    (end_modal wUndo).op.bend_transform = none ∧
    (end_modal wUndo).op.finished = false ∧
    (end_modal wUndo).op.mouse_at_rest = false ∧
    (end_modal wUndo).op.should_undo = false ∧
    (end_modal wUndo).op.initial_transform = none ∧
    (end_modal wUndo).motion_queue = none :=
  termination_undo_and_flag_reset cfg0 evEsc op0 wUndo Mat4.identity (Or.inl rfl) rfl

/-- Claim C5: the translation update changes only the translation
component of the stored transform.  The hypothesis is the mathutils
Euler round-trip identity at the current matrix (decomposing the linear
block to Euler angles and recomposing with the live scale reproduces the
block — which holds for every matrix previously stored through
`Matrix.LocRotScale` with that scale); under it, `translate_target`
succeeds and leaves the linear block, hence the orientation, exactly as
it was, for every view matrix, input force and lock configuration. -/
theorem translate_target_preserves_orientation (mu : MathUtils) (v : Mat4)
    (loc : Vec3) (w : World)
    (h : (mu.eulerToMat (mu.matToEuler w.memo.get_matrix.lin)).mul
           (Mat3.diag w.memo.target.scale) = w.memo.get_matrix.lin) :
    ∃ w', translate_target mu (some v) loc w = .ok w' ∧
          w'.memo.get_matrix.lin = w.memo.get_matrix.lin ∧
          w'.op = w.op := by
  refine ⟨_, rfl, ?_, rfl⟩
  simpa [translate_target, update_target_matrix, MatrixMemo.get_set, LocRotScale] using h

/-- Witness for C5 at the identity view, identity start transform and
unit scale. -/
theorem translate_target_preserves_orientation_witness :
    ∃ w', translate_target muId (some Mat4.identity) ⟨1, 2, 3⟩ wBase = .ok w' ∧
          w'.memo.get_matrix.lin = wBase.memo.get_matrix.lin ∧
          w'.op = wBase.op :=
  translate_target_preserves_orientation muId Mat4.identity ⟨1, 2, 3⟩ wBase
    (by norm_num [muId, wBase, memo0, obj0, MatrixMemo.get_matrix, Mat4.identity,
          Mat3.diag, Mat3.mul, Mat3.one])

/-- Counterexample for C1 as stated: with no view context the
view-orientation computation returns `None` — not the identity — and
the rotation update then raises `AttributeError` instead of completing
as if the view were identity. -/
theorem no_view_identity_claim_false :
    get_preferred_active_view_rotation_matrix muId prefs1 ctxNoArea = none ∧
    rotate_target muId (get_preferred_active_view_rotation_matrix muId prefs1 ctxNoArea)
        ⟨1, 0, 0⟩ wBase = .error .attributeError ∧
    translate_target muId (get_preferred_active_view_rotation_matrix muId prefs1 ctxNoArea)
        ⟨1, 0, 0⟩ wBase = .error .attributeError :=
  ⟨rfl, rfl, rfl⟩

/-- Claim C1 amended: whenever no view context is available (no area,
no 3D viewport space, or no region data) the view-orientation
computation returns `None`, and both the rotation and the translation
update fail with an `AttributeError` on that `None` view (at
`view.inverted_safe()`) rather than degrading to the identity
orientation. -/
theorem no_view_returns_none_and_updates_fail (mu : MathUtils)
    (prefs : Addon3DMousePlusPreferences) (ctx : BContext)
    (r l : Vec3) (w : World)
    (h : no_view_context ctx = true) :
    get_preferred_active_view_rotation_matrix mu prefs ctx = none ∧
    rotate_target mu (get_preferred_active_view_rotation_matrix mu prefs ctx) r w
      = .error .attributeError ∧
    translate_target mu (get_preferred_active_view_rotation_matrix mu prefs ctx) l w
      = .error .attributeError := by
  have hnone : get_preferred_active_view_rotation_matrix mu prefs ctx = none := by
    obtain ⟨areaOpt, mode⟩ := ctx
    cases areaOpt with
    | none => rfl
    | some area =>
      cases hf : find_spaceview3d area.spaces with
      | none => simp [get_preferred_active_view_rotation_matrix, hf]
      | some v =>
        cases hr : v.region_3d with
        | none => simp [get_preferred_active_view_rotation_matrix, hf, hr]
        | some rd =>
          exfalso
          simp [no_view_context, hf, hr] at h
  refine ⟨hnone, ?_, ?_⟩ <;> rw [hnone] <;> rfl

/-- Witness for the amended C1 at a concrete context with no area. -/
theorem no_view_returns_none_and_updates_fail_witness :
    get_preferred_active_view_rotation_matrix muId prefs1 ctxNoArea = none ∧
    rotate_target muId (get_preferred_active_view_rotation_matrix muId prefs1 ctxNoArea)
        ⟨0, 1, 0⟩ wBend = .error .attributeError ∧
    translate_target muId (get_preferred_active_view_rotation_matrix muId prefs1 ctxNoArea)
        ⟨0, 1, 0⟩ wBend = .error .attributeError :=
  no_view_returns_none_and_updates_fail muId prefs1 ctxNoArea ⟨0, 1, 0⟩ ⟨0, 1, 0⟩ wBend rfl

/-- Sequencing helper for the drain-loop dispatch proof: running the
gated rotate/translate steps with a continuation inlined into every
branch is the same as running the steps first and then binding the
continuation. -/
theorem except_seq_assoc {ε α β : Type} (c1 : Prop) [Decidable c1]
    (m : Except ε α) (c2 : α → Prop) [DecidablePred c2]
    (g : α → Except ε α) (k : α → Except ε β) (w : α) :
    (if c1 then m >>= fun y => if c2 y then g y >>= k else k y
     else if c2 w then g w >>= k else k w)
    = ((if c1 then m >>= fun y => if c2 y then g y else pure y
        else if c2 w then g w else pure w) >>= k) := by
  by_cases h1 : c1
  · simp only [if_pos h1]
    cases m with
    | error e => rfl
    | ok y =>
      show (if c2 y then g y >>= k else k y)
        = ((if c2 y then g y else pure y) >>= k)
      by_cases h2 : c2 y
      · rw [if_pos h2, if_pos h2]
      · rw [if_neg h2, if_neg h2]
        rfl
  · simp only [if_neg h1]
    by_cases h2 : c2 w
    · rw [if_pos h2, if_pos h2]
    · rw [if_neg h2, if_neg h2]
      rfl

/-- Counterexample for C2 as stated: an at-rest event arriving while the
gesture is NOT finished is skipped, not applied.  Concretely, in bend
mode with no anchor, draining a single all-zero event leaves the anchor
empty, whereas applying the full pipeline to that event (as the claim
requires for every event of an unfinished gesture) would capture the
current transform as the anchor. -/
theorem resting_event_skipped_claim_false :
    (drain_loop muId prefs1 ctxView [restEvent] wBend).map
        (fun pr => pr.1.op.bend_transform) = .ok none ∧
    (pipeline_step muId prefs1 ctxView
          { wBend with op := (check_mouse_at_rest wBend.op restEvent).1 } restEvent).map
        (fun ww => ww.op.bend_transform) = .ok (some Mat4.identity) :=
  ⟨rfl, rfl⟩

/-- Claim C2 amended: for every drained motion event, rest detection is
recorded first; a finished gesture terminates through `end_modal` on an
at-rest event and swallows a non-rest event while draining continues; an
at-rest event of an unfinished gesture is likewise skipped (draining
continues); and only a non-rest event of an unfinished gesture gets the
full pipeline — preference remapping, view orientation, bend-mode
anchor handling, then the rotation update (in pose mode or with rotation
unlocked) followed by the translation update (outside pose mode with
translation unlocked) — before draining continues. -/
theorem drain_loop_dispatch (mu : MathUtils) (prefs : Addon3DMousePlusPreferences)
    (ctx : BContext) (mo : SpnavMotionEvent) (rest : List SpnavMotionEvent) (w : World) :
    ((check_mouse_at_rest w.op mo).2 = true → w.op.finished = true →
       drain_loop mu prefs ctx (mo :: rest) w
         = .ok (end_modal { w with op := (check_mouse_at_rest w.op mo).1 }, true)) ∧
    ((check_mouse_at_rest w.op mo).2 = false → w.op.finished = true →
       drain_loop mu prefs ctx (mo :: rest) w
         = drain_loop mu prefs ctx rest { w with op := (check_mouse_at_rest w.op mo).1 }) ∧
    ((check_mouse_at_rest w.op mo).2 = true → w.op.finished = false →
       drain_loop mu prefs ctx (mo :: rest) w
         = drain_loop mu prefs ctx rest { w with op := (check_mouse_at_rest w.op mo).1 }) ∧
    ((check_mouse_at_rest w.op mo).2 = false → w.op.finished = false →
       drain_loop mu prefs ctx (mo :: rest) w
         = pipeline_step mu prefs ctx
              { w with op := (check_mouse_at_rest w.op mo).1 } mo >>=
             (fun w2 => drain_loop mu prefs ctx rest w2)) := by
  refine ⟨?_, ?_, ?_, ?_⟩ <;> intro h1 h2
  · simp [drain_loop, h1, h2, check_mouse_at_rest_keeps_finished]
  · simp [drain_loop, h1, h2, check_mouse_at_rest_keeps_finished]
  · simp [drain_loop, h1, h2, check_mouse_at_rest_keeps_finished]
  · simp [drain_loop, pipeline_step, h1, h2, check_mouse_at_rest_keeps_finished]
    exact except_seq_assoc _ _ _ _ _ _

/-- Witness for the amended C2: a finished gesture receiving an at-rest
event terminates through `end_modal`. -/
theorem drain_loop_dispatch_witness :
    drain_loop muId prefs1 ctxNoArea [restEvent] wFin
      = .ok (end_modal { wFin with op := (check_mouse_at_rest wFin.op restEvent).1 }, true) :=
  (drain_loop_dispatch muId prefs1 ctxNoArea restEvent [] wFin).1 rfl rfl
